import Mathlib

/-!
Shallow embedding of the go-matrix client SDK (package gomatrix).

The embedding models the client state (`Client`), the outside world
(`World`: the scripted HTTP responses of the server, the log of issued
HTTP requests, the stream of generated UUIDs, and the log of session-store
writes), and translates each Go function into a Lean function that
threads `Client` and `World` explicitly.  HTTP response bodies are JSON
values; request bodies are the exact strings Go's `encoding/json`
marshalling produces.
-/

namespace gomatrix

/-- JSON values, used for HTTP response bodies. -/
inductive Json where
  | str : String → Json
  | num : Int → Json
  | bool : Bool → Json
  | null : Json
  | arr : List Json → Json
  | obj : List (String × Json) → Json
deriving BEq

/-- Lowercase hexadecimal digit, as used by Go's JSON escaping. -/
def hexDigit (n : Nat) : Char :=
  if n < 10 then Char.ofNat (48 + n) else Char.ofNat (87 + n)

/-- Escape a single character the way Go's `encoding/json` (with its
default HTML escaping) writes it inside a JSON string. -/
def escapeChar (c : Char) : String :=
  if c = '"' then "\\\""
  else if c = '\\' then "\\\\"
  else if c = '\n' then "\\n"
  else if c = '\r' then "\\r"
  else if c = '\t' then "\\t"
  else if c = '<' then "\\u003c"
  else if c = '>' then "\\u003e"
  else if c = '&' then "\\u0026"
  else if c.toNat < 32 then
    "\\u00" ++ String.mk [hexDigit (c.toNat / 16), hexDigit (c.toNat % 16)]
  else if c.toNat = 8232 then "\\u2028"
  else if c.toNat = 8233 then "\\u2029"
  else String.singleton c

/-- A Go string rendered as a quoted JSON string literal. -/
def jsonQuote (s : String) : String :=
  "\"" ++ String.join (s.toList.map escapeChar) ++ "\""

/-- Serialization of `apiLoginReq` (fields in struct order: type, user,
password; no omitempty). -/
def marshalLoginReq (user password : String) : String :=
  "\x7b\"type\":\"m.login.password\",\"user\":" ++ jsonQuote user ++
    ",\"password\":" ++ jsonQuote password ++ "\x7d"

/-- Go struct `apiSendMsgReq` (api.go).  `roomID` carries the tag
`json:"-"` and is excluded from serialization; all other fields except
`msgtype` carry `omitempty`. -/
structure apiSendMsgReq where
  roomID : String
  type : String
  body : String
  format : String
  formattedBody : String
  filename : String
  url : String
deriving BEq

/-- The serialized key/value pairs of an `apiSendMsgReq`, in Go struct
field order, honouring `json:"-"` on RoomID and `omitempty` on the
string fields (a Go string is empty exactly when it is omitted). -/
def sendMsgFields (m : apiSendMsgReq) : List (String × String) :=
  [("msgtype", jsonQuote m.type)]
    ++ (if m.body = "" then [] else [("body", jsonQuote m.body)])
    ++ (if m.format = "" then [] else [("format", jsonQuote m.format)])
    ++ (if m.formattedBody = "" then [] else [("formatted_body", jsonQuote m.formattedBody)])
    ++ (if m.filename = "" then [] else [("filename", jsonQuote m.filename)])
    ++ (if m.url = "" then [] else [("url", jsonQuote m.url)])

/-- Render serialized fields as the inside of a JSON object. -/
def renderFields : List (String × String) → String
  | [] => ""
  | [(k, v)] => jsonQuote k ++ ":" ++ v
  | (k, v) :: rest => jsonQuote k ++ ":" ++ v ++ "," ++ renderFields rest

/-- `json.Marshal` of an `apiSendMsgReq`. -/
def marshalSendMsg (m : apiSendMsgReq) : String :=
  "\x7b" ++ renderFields (sendMsgFields m) ++ "\x7d"

/-- Go struct `Session` (session.go). -/
structure Session where
  accessToken : String
  deviceID : String
deriving BEq, DecidableEq

/-- Decode one string field of a JSON object the way Go's decoder fills a
struct field: absent field leaves the zero value, a present non-string
value is a decode error. -/
def decodeStringField (fs : List (String × Json)) (k : String) : Except String String :=
  match fs.lookup k with
  | Option.none => Except.ok ""
  | Option.some (Json.str s) => Except.ok s
  | Option.some _ => Except.error ("json: cannot unmarshal field " ++ k)

/-- `json.Decoder.Decode` into a `Session` value. -/
def decodeSession (j : Json) : Except String Session :=
  match j with
  | Json.obj fs =>
    match decodeStringField fs "access_token", decodeStringField fs "device_id" with
    | Except.ok tok, Except.ok dev => Except.ok { accessToken := tok, deviceID := dev }
    | Except.error e, _ => Except.error e
    | _, Except.error e => Except.error e
  | _ => Except.error "json: cannot unmarshal into Session"

/-- `json.Decoder.Decode` into an `apiUploadResp` (api.go), returning its
`content_uri` field. -/
def decodeUploadResp (j : Json) : Except String String :=
  match j with
  | Json.obj fs => decodeStringField fs "content_uri"
  | _ => Except.error "json: cannot unmarshal into apiUploadResp"

/-- `requestTimeout = time.Minute`, modelled in seconds. -/
def requestTimeout : Nat := 60

/-- An `*http.Client` value: its timeout (`Option.none` = no timeout) and
an identity tag distinguishing distinct client values. -/
structure HttpTransport where
  timeout : Option Nat
  tag : Nat
deriving BEq, DecidableEq

/-- `http.DefaultClient`: the zero `http.Client`, which has no timeout. -/
def defaultClient : HttpTransport := { timeout := Option.none, tag := 0 }

/-- The client `NewClientWithConfig` constructs when no custom transport
is supplied: `&http.Client\x7bTimeout: requestTimeout\x7d`. -/
def defaultTimeoutClient : HttpTransport := { timeout := Option.some requestTimeout, tag := 1 }

/-- An HTTP response as seen by the client: status code and JSON body. -/
structure HttpResponse where
  status : Nat
  body : Json
deriving BEq

/-- An issued HTTP request: method, full URL, headers, payload, the
transport (`*http.Client`) that executed it, and the deadline bound the
issuing code put on its context, if any. -/
structure HttpRequest where
  method : String
  url : String
  headers : List (String × String)
  body : String
  transport : HttpTransport
  ctxTimeout : Option Nat
deriving BEq

/-- `http.Header.Set`: replace any existing value for the key. -/
def setHeader (hs : List (String × String)) (k v : String) : List (String × String) :=
  hs.filter (fun p => p.1 != k) ++ [(k, v)]

/-- Apply a list of `Header.Set` calls (the request customizer `reqFn`). -/
def applyHeaders (extra : List (String × String)) (hs : List (String × String)) :
    List (String × String) :=
  extra.foldl (fun acc kv => setHeader acc kv.1 kv.2) hs

/-- Header lookup. -/
def getHeader (hs : List (String × String)) (k : String) : Option String :=
  hs.lookup k

/-- The world outside the client: the server's scripted responses
(`Option.none` = transport-level failure), the UUID generator's stream,
the log of issued HTTP requests, and the log of sessions successfully
written to the session store. -/
structure World where
  script : List (Option HttpResponse)
  uuids : List String
  log : List HttpRequest
  storeWrites : List Session

/-- Issue one HTTP request: record it and consume the next scripted
response (an exhausted script behaves as a transport failure). -/
def httpDo (req : HttpRequest) (w : World) : Option HttpResponse × World :=
  match w.script with
  | [] => (Option.none, { w with log := w.log ++ [req] })
  | r :: rest => (r, { w with script := rest, log := w.log ++ [req] })

/-- `uuid.NewString()`: consume the next identifier from the stream. -/
def nextUuid (w : World) : String × World :=
  match w.uuids with
  | [] => ("", w)
  | u :: us => (u, { w with uuids := us })

/-- The error values the client-side functions produce. -/
inductive GoErr where
  | transport : String → GoErr
  | authStatus : Nat → Json → GoErr
  | reqStatus : Nat → Json → GoErr
  | decode : String → GoErr
  | storage : String → GoErr
  | wrap : String → GoErr → GoErr
deriving BEq

/-- Go struct `Credentials`. -/
structure Credentials where
  server : String
  user : String
  password : String
deriving BEq, DecidableEq

/-- A configured `SessionStorage` (session.go interface): either absent
(nil) or a store with a fixed `Get` outcome and a `Set` outcome per
session (`Option.none` = success, `Option.some e` = the error). -/
inductive StorageCfg where
  | absent : StorageCfg
  | store : Except String Session → (Session → Option String) → StorageCfg

/-- Go struct `Client` (the mutex is implicit: the embedding is the
sequential semantics the lock enforces). -/
structure Client where
  credentials : Credentials
  httpClient : HttpTransport
  token : String
  sessionStorage : StorageCfg

/-- `Client.getToken`. -/
def getToken (c : Client) : String := c.token

/-- The login request `authenticate` builds: POST to the fixed login
path, JSON payload with the fixed login method, executed through
`http.DefaultClient` under a one-minute context deadline. -/
def loginRequest (c : Client) : HttpRequest :=
  { method := "POST"
  , url := c.credentials.server ++ "/_matrix/client/v3/login"
  , headers := setHeader [] "Content-Type" "application/json"
  , body := marshalLoginReq c.credentials.user c.credentials.password
  , transport := defaultClient
  , ctxTimeout := Option.some requestTimeout }

/-- `Client.authenticate(prevToken)` (part_000 lines 147-197). -/
def authenticate (c : Client) (w : World) (prevToken : String) :
    Except GoErr Unit × Client × World :=
  if c.token ≠ prevToken then (Except.ok (), c, w)
  else
    match httpDo (loginRequest c) w with
    | (Option.none, w1) => (Except.error (GoErr.transport "failed to do an auth request"), c, w1)
    | (Option.some resp, w1) =>
      if resp.status ≥ 400 then
        (Except.error (GoErr.authStatus resp.status resp.body), c, w1)
      else
        match decodeSession resp.body with
        | Except.error e => (Except.error (GoErr.decode e), c, w1)
        | Except.ok sess =>
          let c1 := { c with token := sess.accessToken }
          match c1.sessionStorage with
          | StorageCfg.absent => (Except.ok (), c1, w1)
          | StorageCfg.store _ setf =>
            match setf sess with
            | Option.none =>
              (Except.ok (), c1, { w1 with storeWrites := w1.storeWrites ++ [sess] })
            | Option.some e => (Except.error (GoErr.storage e), c1, w1)

/-- The request `doRequest` builds on one attempt: the Authorization
header holds the token read via `getToken`, the caller's customizer is
applied after it, and the call goes through `http.DefaultClient` with no
deadline of its own. -/
def buildRequest (c : Client) (method path payload : String)
    (extra : List (String × String)) : HttpRequest :=
  { method := method
  , url := c.credentials.server ++ path
  , headers := applyHeaders extra (setHeader [] "Authorization" ("Bearer " ++ getToken c))
  , body := payload
  , transport := defaultClient
  , ctxTimeout := Option.none }

/-- Outcome of one HTTP attempt inside `doRequest`. -/
inductive AttemptOut where
  | success : HttpResponse → AttemptOut
  | httpFailure : Nat → Json → AttemptOut
  | transportFailure : AttemptOut

/-- One attempt of `doRequest`: build the request, issue it, classify. -/
def attempt (c : Client) (w : World) (method path payload : String)
    (extra : List (String × String)) : AttemptOut × World :=
  match httpDo (buildRequest c method path payload extra) w with
  | (Option.none, w1) => (AttemptOut.transportFailure, w1)
  | (Option.some resp, w1) =>
    if resp.status < 400 then (AttemptOut.success resp, w1)
    else (AttemptOut.httpFailure resp.status resp.body, w1)

/-- `doRequest` with `tryAuth = false`: a single attempt whose HTTP
failures (any status >= 400, 401 included) are terminal. -/
def doRequestNoRetry (c : Client) (w : World) (method path payload : String)
    (extra : List (String × String)) : Except GoErr HttpResponse × Client × World :=
  match attempt c w method path payload extra with
  | (AttemptOut.transportFailure, w1) =>
    (Except.error (GoErr.transport "failed to do a request"), c, w1)
  | (AttemptOut.success resp, w1) => (Except.ok resp, c, w1)
  | (AttemptOut.httpFailure st body, w1) =>
    (Except.error (GoErr.reqStatus st body), c, w1)

/-- `Client.doRequest` (part_000 lines 199-237): on a 401 with `tryAuth`
set, re-authenticate with the token used for the attempt and, if that
succeeded, re-issue the identical request once with `tryAuth = false`. -/
def doRequest (c : Client) (w : World) (method path payload : String)
    (extra : List (String × String)) (tryAuth : Bool) :
    Except GoErr HttpResponse × Client × World :=
  let token := getToken c
  match attempt c w method path payload extra with
  | (AttemptOut.transportFailure, w1) =>
    (Except.error (GoErr.transport "failed to do a request"), c, w1)
  | (AttemptOut.success resp, w1) => (Except.ok resp, c, w1)
  | (AttemptOut.httpFailure st body, w1) =>
    if tryAuth = false ∨ st ≠ 401 then
      (Except.error (GoErr.reqStatus st body), c, w1)
    else
      match authenticate c w1 token with
      | (Except.error e, c1, w2) => (Except.error e, c1, w2)
      | (Except.ok _, c1, w2) => doRequestNoRetry c1 w2 method path payload extra

/-- The event path `sendMessage` builds around the fresh identifier. -/
def msgPath (roomID u : String) : String :=
  "/_matrix/client/v3/rooms/" ++ roomID ++ "/send/m.room.message/" ++ u

/-- `Client.sendMessage` (part_000 lines 111-126). -/
def sendMessage (c : Client) (w : World) (msg : apiSendMsgReq) :
    Except GoErr Unit × Client × World :=
  let payload := marshalSendMsg msg
  let (u, w1) := nextUuid w
  match doRequest c w1 "PUT" (msgPath msg.roomID u) payload
      [("Content-Type", "application/json")] true with
  | (Except.error e, c1, w2) => (Except.error (GoErr.wrap "failed to send a message" e), c1, w2)
  | (Except.ok _, c1, w2) => (Except.ok (), c1, w2)

/-- `MediaType` and its exposed constants. -/
def MediaType := String

def File : MediaType := "m.file"

def Image : MediaType := "m.image"

def Audio : MediaType := "m.audio"

def Video : MediaType := "m.video"

/-- Go struct `Media`. -/
structure Media where
  type : MediaType
  caption : String
  filename : String
  uri : String

/-- The `apiSendMsgReq` built by `SendText`. -/
def buildTextMsg (roomID text : String) : apiSendMsgReq :=
  { roomID := roomID, type := "m.text", body := text
  , format := "", formattedBody := "", filename := "", url := "" }

/-- The `apiSendMsgReq` built by `SendMedia`. -/
def buildMediaMsg (roomID : String) (m : Media) : apiSendMsgReq :=
  { roomID := roomID, type := m.type, body := m.caption
  , format := "", formattedBody := "", filename := m.filename, url := m.uri }

/-- `Client.SendText`. -/
def SendText (c : Client) (w : World) (roomID text : String) :
    Except GoErr Unit × Client × World :=
  sendMessage c w (buildTextMsg roomID text)

/-- `Client.SendMedia`. -/
def SendMedia (c : Client) (w : World) (roomID : String) (media : Media) :
    Except GoErr Unit × Client × World :=
  sendMessage c w (buildMediaMsg roomID media)

/-- `Client.UploadFile` (part_000 lines 128-145).  `data` models the raw
byte slice; `data.length` models `len(data)`. -/
def UploadFile (c : Client) (w : World) (contentType data : String) :
    Except GoErr String × Client × World :=
  match doRequest c w "POST" "/_matrix/media/v3/upload" data
      [("Content-Type", contentType), ("Content-Length", toString data.length)] true with
  | (Except.error e, c1, w1) => (Except.error (GoErr.wrap "failed to upload a file" e), c1, w1)
  | (Except.ok resp, c1, w1) =>
    match decodeUploadResp resp.body with
    | Except.error e =>
      (Except.error (GoErr.wrap "failed to unmarshal upload file response" (GoErr.decode e)), c1, w1)
    | Except.ok uri => (Except.ok uri, c1, w1)

/-- Go struct `Config`. -/
structure Config where
  credentials : Credentials
  sessionStorage : StorageCfg
  httpClient : Option HttpTransport

/-- The transport `NewClientWithConfig` installs. -/
def transportOf (cfg : Config) : HttpTransport :=
  cfg.httpClient.getD defaultTimeoutClient

/-- The client value after the session-store lookup of
`NewClientWithConfig`, before the eager-authentication step. -/
def clientAfterLoad (cfg : Config) : Except GoErr Client :=
  let c : Client := { credentials := cfg.credentials, httpClient := transportOf cfg
                    , token := "", sessionStorage := cfg.sessionStorage }
  match cfg.sessionStorage with
  | StorageCfg.absent => Except.ok c
  | StorageCfg.store g _ =>
    match g with
    | Except.error e => Except.error (GoErr.storage e)
    | Except.ok sess =>
      if sess.accessToken ≠ "" then Except.ok { c with token := sess.accessToken }
      else Except.ok c

/-- `NewClientWithConfig` (part_000 lines 50-80). -/
def NewClientWithConfig (cfg : Config) (w : World) : Except GoErr Client × World :=
  match clientAfterLoad cfg with
  | Except.error e => (Except.error e, w)
  | Except.ok c0 =>
    if c0.token = "" then
      match authenticate c0 w c0.token with
      | (Except.error e, _, w1) => (Except.error e, w1)
      | (Except.ok _, c1, w1) => (Except.ok c1, w1)
    else (Except.ok c0, w)

/-- `NewClient`. -/
def NewClient (cred : Credentials) (w : World) : Except GoErr Client × World :=
  NewClientWithConfig
    { credentials := cred, sessionStorage := StorageCfg.absent, httpClient := Option.none } w

/-- A configured store (when present) accepts the write of `sess`. -/
def storeSetOk (cfg : StorageCfg) (sess : Session) : Prop :=
  match cfg with
  | StorageCfg.absent => True
  | StorageCfg.store _ setf => setf sess = Option.none

/-- The store-write log after `authenticate` persists `sess` (a no-op
when no store is configured). -/
def storeWriteLog (cfg : StorageCfg) (sess : Session) (sw : List Session) : List Session :=
  match cfg with
  | StorageCfg.absent => sw
  | StorageCfg.store _ _ => sw ++ [sess]

/-! ### Helper lemmas about single steps of the executor -/

lemma attempt_script_cons (c : Client) (r : HttpResponse) (rest : List (Option HttpResponse))
    (uu : List String) (lg : List HttpRequest) (sw : List Session)
    (m p pl : String) (ex : List (String × String)) :
    attempt c ⟨Option.some r :: rest, uu, lg, sw⟩ m p pl ex =
      (if r.status < 400 then AttemptOut.success r
       else AttemptOut.httpFailure r.status r.body,
       ⟨rest, uu, lg ++ [buildRequest c m p pl ex], sw⟩) := by
  simp only [attempt, httpDo]
  split <;> rfl

lemma authenticate_run_success (c : Client) (r : HttpResponse)
    (rest : List (Option HttpResponse)) (uu : List String) (lg : List HttpRequest)
    (sw : List Session) (sess : Session)
    (hok : r.status < 400) (hdec : decodeSession r.body = Except.ok sess)
    (hset : storeSetOk c.sessionStorage sess) :
    authenticate c ⟨Option.some r :: rest, uu, lg, sw⟩ c.token =
      (Except.ok (), { c with token := sess.accessToken },
       ⟨rest, uu, lg ++ [loginRequest c], storeWriteLog c.sessionStorage sess sw⟩) := by
  simp only [authenticate, httpDo, ne_eq, not_true_eq_false, if_false, ite_false]
  rw [if_neg (by omega)]
  rw [hdec]
  rcases hcfg : c.sessionStorage with _ | ⟨g, setf⟩
  · simp [storeWriteLog, hcfg]
  · have hsetf : setf sess = Option.none := by
      have := hset
      rw [hcfg] at this
      exact this
    simp [storeWriteLog, hcfg, hsetf]

lemma doRequest_first_attempt_401 (c : Client) (r1 : HttpResponse)
    (rest : List (Option HttpResponse)) (uu : List String) (lg : List HttpRequest)
    (sw : List Session) (m p pl : String) (ex : List (String × String))
    (h401 : r1.status = 401) :
    doRequest c ⟨Option.some r1 :: rest, uu, lg, sw⟩ m p pl ex true =
      (match authenticate c ⟨rest, uu, lg ++ [buildRequest c m p pl ex], sw⟩ c.token with
       | (Except.error e, c1, w2) => (Except.error e, c1, w2)
       | (Except.ok _, c1, w2) => doRequestNoRetry c1 w2 m p pl ex) := by
  simp only [doRequest, attempt_script_cons, h401, getToken]
  norm_num

lemma doRequestNoRetry_script_cons (c : Client) (r : HttpResponse)
    (rest : List (Option HttpResponse)) (uu : List String) (lg : List HttpRequest)
    (sw : List Session) (m p pl : String) (ex : List (String × String)) :
    doRequestNoRetry c ⟨Option.some r :: rest, uu, lg, sw⟩ m p pl ex =
      (if r.status < 400 then Except.ok r
       else Except.error (GoErr.reqStatus r.status r.body), c,
       ⟨rest, uu, lg ++ [buildRequest c m p pl ex], sw⟩) := by
  simp only [doRequestNoRetry, attempt_script_cons]
  by_cases h : r.status < 400
  · rw [if_pos h, if_pos h]
  · rw [if_neg h, if_neg h]

/-- The full 401 / re-authenticate / retry cycle of `doRequest`, for a
script holding the first response (401), the login response (success,
decoding to `sess`) and the retry response `r2`. -/
lemma doRequest_cycle (c : Client) (r1 rl r2 : HttpResponse)
    (rest : List (Option HttpResponse)) (uu : List String) (lg : List HttpRequest)
    (sw : List Session) (sess : Session) (m p pl : String) (ex : List (String × String))
    (h401 : r1.status = 401) (hlok : rl.status < 400)
    (hdec : decodeSession rl.body = Except.ok sess)
    (hset : storeSetOk c.sessionStorage sess) :
    doRequest c ⟨Option.some r1 :: Option.some rl :: Option.some r2 :: rest, uu, lg, sw⟩
        m p pl ex true =
      (if r2.status < 400 then Except.ok r2
       else Except.error (GoErr.reqStatus r2.status r2.body),
       { c with token := sess.accessToken },
       ⟨rest, uu,
        lg ++ [buildRequest c m p pl ex, loginRequest c,
               buildRequest { c with token := sess.accessToken } m p pl ex],
        storeWriteLog c.sessionStorage sess sw⟩) := by
  rw [doRequest_first_attempt_401 c r1 _ uu lg sw m p pl ex h401]
  rw [authenticate_run_success c rl _ uu _ sw sess hlok hdec hset]
  dsimp only
  rw [doRequestNoRetry_script_cons]
  simp [List.append_assoc]

/-- C2: a call to `authenticate` whose `prevToken` differs from the
current in-memory token returns success at once, leaving the client (its
token included) and the world (HTTP log, session-store writes)
untouched: no login request is issued and nothing is written. -/
theorem authenticate_skips_when_token_changed (c : Client) (w : World) (prev : String)
    (h : c.token ≠ prev) :
    authenticate c w prev = (Except.ok (), c, w) := by
  simp [authenticate, h]

/-- Witness for C2 at a concrete client whose token differs from the
argument. -/
theorem authenticate_skips_when_token_changed_witness :
    authenticate
      { credentials := { server := "https://m", user := "u", password := "p" }
      , httpClient := defaultTimeoutClient, token := "tokA"
      , sessionStorage := StorageCfg.absent }
      ⟨[], [], [], []⟩ "tokB" =
      (Except.ok (),
       { credentials := { server := "https://m", user := "u", password := "p" }
       , httpClient := defaultTimeoutClient, token := "tokA"
       , sessionStorage := StorageCfg.absent },
       ⟨[], [], [], []⟩) :=
  authenticate_skips_when_token_changed _ _ "tokB" (by decide)

/-- C3: a call to `authenticate` that issues a login request (the token
still equals `prevToken`) and receives a status >= 400 fails with an
error carrying that status and body; the client — in particular its
in-memory token — is unchanged, and no session-store write happens. -/
theorem authenticate_login_rejected (c : Client) (r : HttpResponse)
    (rest : List (Option HttpResponse)) (uu : List String) (lg : List HttpRequest)
    (sw : List Session) (hbad : 400 ≤ r.status) :
    authenticate c ⟨Option.some r :: rest, uu, lg, sw⟩ c.token =
      (Except.error (GoErr.authStatus r.status r.body), c,
       ⟨rest, uu, lg ++ [loginRequest c], sw⟩) := by
  simp only [authenticate, httpDo, ne_eq, not_true_eq_false, if_false, ite_false]
  rw [if_pos hbad]

/-- Witness for C3: a concrete 403 login response. -/
theorem authenticate_login_rejected_witness :
    authenticate
      { credentials := { server := "https://m", user := "u", password := "p" }
      , httpClient := defaultTimeoutClient, token := "tok"
      , sessionStorage := StorageCfg.absent }
      ⟨[Option.some { status := 403, body := Json.str "denied" }], [], [], []⟩ "tok" =
      (Except.error (GoErr.authStatus 403 (Json.str "denied")),
       { credentials := { server := "https://m", user := "u", password := "p" }
       , httpClient := defaultTimeoutClient, token := "tok"
       , sessionStorage := StorageCfg.absent },
       ⟨[], [],
        [loginRequest
          { credentials := { server := "https://m", user := "u", password := "p" }
          , httpClient := defaultTimeoutClient, token := "tok"
          , sessionStorage := StorageCfg.absent }], []⟩) :=
  authenticate_login_rejected _ _ _ _ _ _ (by decide)

/-- A client whose session store rejects every write, used to exercise
the storage-failure path of `authenticate`. -/
def failingStoreClient : Client :=
  { credentials := { server := "https://m", user := "u", password := "p" }
  , httpClient := defaultTimeoutClient
  , token := "old"
  , sessionStorage :=
      StorageCfg.store (Except.ok { accessToken := "", deviceID := "" })
        (fun _ => Option.some "disk full") }

/-- C4 counterexample: a completed `authenticate` call whose store write
failed leaves the in-memory token holding the NEW session's token while
nothing was ever written to the store — the in-memory token and the
value last written to the store do not reflect the same authentication,
even though the write failure was surfaced as an error. -/
theorem authenticate_store_failure_desyncs :
    (authenticate failingStoreClient
        ⟨[Option.some { status := 200, body := Json.obj [("access_token", Json.str "newTok")] }],
         [], [], []⟩ "old").1 = Except.error (GoErr.storage "disk full")
    ∧ (authenticate failingStoreClient
        ⟨[Option.some { status := 200, body := Json.obj [("access_token", Json.str "newTok")] }],
         [], [], []⟩ "old").2.1.token = "newTok"
    ∧ (authenticate failingStoreClient
        ⟨[Option.some { status := 200, body := Json.obj [("access_token", Json.str "newTok")] }],
         [], [], []⟩ "old").2.2.storeWrites = [] :=
  ⟨rfl, rfl, rfl⟩

/-- C4 (amended): on a successful login, `authenticate` replaces the
in-memory token and, when the configured store's write succeeds, appends
the same session to the store, so token and last-written session reflect
the same authentication; a storage write failure is surfaced as an error
to the caller, but the in-memory token nonetheless keeps the new
session's token (so the claimed invariant only holds when store writes
succeed). -/
theorem authenticate_success_store_sync (c : Client) (r : HttpResponse)
    (rest : List (Option HttpResponse)) (uu : List String) (lg : List HttpRequest)
    (sw : List Session) (sess : Session) (g : Except String Session)
    (setf : Session → Option String)
    (hok : r.status < 400) (hdec : decodeSession r.body = Except.ok sess)
    (hstore : c.sessionStorage = StorageCfg.store g setf) :
    (setf sess = Option.none →
      authenticate c ⟨Option.some r :: rest, uu, lg, sw⟩ c.token =
        (Except.ok (), { c with token := sess.accessToken },
         ⟨rest, uu, lg ++ [loginRequest c], sw ++ [sess]⟩))
    ∧ (∀ e, setf sess = Option.some e →
      authenticate c ⟨Option.some r :: rest, uu, lg, sw⟩ c.token =
        (Except.error (GoErr.storage e), { c with token := sess.accessToken },
         ⟨rest, uu, lg ++ [loginRequest c], sw⟩)) := by
  constructor
  · intro hsetf
    have h := authenticate_run_success c r rest uu lg sw sess hok hdec
      (by rw [hstore]; exact hsetf)
    rw [h, hstore]
    rfl
  · intro e hsetf
    simp only [authenticate, httpDo, ne_eq, not_true_eq_false, if_false, ite_false]
    rw [if_neg (by omega)]
    rw [hdec]
    simp [hstore, hsetf]

/-- Witness for C4's amended theorem, at the concrete failing store. -/
theorem authenticate_success_store_sync_witness :
    ((fun _ => Option.some "disk full" : Session → Option String)
        { accessToken := "newTok", deviceID := "" } = Option.none →
      authenticate failingStoreClient
        ⟨[Option.some { status := 200, body := Json.obj [("access_token", Json.str "newTok")] }],
         [], [], []⟩ "old" =
        (Except.ok (), { failingStoreClient with token := "newTok" },
         ⟨[], [], [loginRequest failingStoreClient],
          [{ accessToken := "newTok", deviceID := "" }]⟩))
    ∧ (∀ e, (fun _ => Option.some "disk full" : Session → Option String)
        { accessToken := "newTok", deviceID := "" } = Option.some e →
      authenticate failingStoreClient
        ⟨[Option.some { status := 200, body := Json.obj [("access_token", Json.str "newTok")] }],
         [], [], []⟩ "old" =
        (Except.error (GoErr.storage e), { failingStoreClient with token := "newTok" },
         ⟨[], [], [loginRequest failingStoreClient], []⟩)) :=
  authenticate_success_store_sync failingStoreClient
    { status := 200, body := Json.obj [("access_token", Json.str "newTok")] }
    [] [] [] [] { accessToken := "newTok", deviceID := "" }
    (Except.ok { accessToken := "", deviceID := "" })
    (fun _ => Option.some "disk full")
    (by decide) rfl rfl

/-- A plain client with no session store, token `tok0`. -/
def plainClient : Client :=
  { credentials := { server := "https://m", user := "u", password := "p" }
  , httpClient := defaultTimeoutClient
  , token := "tok0"
  , sessionStorage := StorageCfg.absent }

/-- C1 counterexample: the server answers the request with 401 and the
login with 500.  `doRequest` invokes `authenticate` once, but the failed
login means the request is NOT re-issued: the log holds exactly the one
original attempt and the login request, and the call fails with the
login's status and body — not with a second response of the request. -/
theorem doRequest_401_then_login_failure_no_retry :
    (doRequest plainClient
        ⟨[Option.some { status := 401, body := Json.null },
          Option.some { status := 500, body := Json.str "login down" }], [], [], []⟩
        "PUT" "/x" "pl" [] true).1
      = Except.error (GoErr.authStatus 500 (Json.str "login down"))
    ∧ (doRequest plainClient
        ⟨[Option.some { status := 401, body := Json.null },
          Option.some { status := 500, body := Json.str "login down" }], [], [], []⟩
        "PUT" "/x" "pl" [] true).2.2.log
      = [buildRequest plainClient "PUT" "/x" "pl" [], loginRequest plainClient] :=
  ⟨rfl, rfl⟩

/-- C1 (amended): on a 401 with `allowAuthRetry` true, `doRequest`
invokes `authenticate` once; when that authentication succeeds, the same
request (same method, path, payload, customizer) is re-issued exactly
once with retry disallowed.  If the retry's status is < 400 the call
succeeds with that response after exactly one re-authentication (the log
grows by exactly two request attempts and one login); any retry status
>= 400 — 401 included — fails the call with the second response's status
and body, and no third attempt is made (the script beyond the three
consumed responses is untouched). -/
theorem doRequest_single_reauth_cycle (c : Client) (r1 rl r2 : HttpResponse)
    (rest : List (Option HttpResponse)) (uu : List String) (lg : List HttpRequest)
    (sw : List Session) (sess : Session) (m p pl : String) (ex : List (String × String))
    (h401 : r1.status = 401) (hlok : rl.status < 400)
    (hdec : decodeSession rl.body = Except.ok sess)
    (hset : storeSetOk c.sessionStorage sess) :
    (doRequest c ⟨Option.some r1 :: Option.some rl :: Option.some r2 :: rest, uu, lg, sw⟩
        m p pl ex true).2.2.log
      = lg ++ [buildRequest c m p pl ex, loginRequest c,
               buildRequest { c with token := sess.accessToken } m p pl ex]
    ∧ (doRequest c ⟨Option.some r1 :: Option.some rl :: Option.some r2 :: rest, uu, lg, sw⟩
        m p pl ex true).2.2.script = rest
    ∧ (r2.status < 400 →
        (doRequest c ⟨Option.some r1 :: Option.some rl :: Option.some r2 :: rest, uu, lg, sw⟩
          m p pl ex true).1 = Except.ok r2)
    ∧ (400 ≤ r2.status →
        (doRequest c ⟨Option.some r1 :: Option.some rl :: Option.some r2 :: rest, uu, lg, sw⟩
          m p pl ex true).1 = Except.error (GoErr.reqStatus r2.status r2.body)) := by
  rw [doRequest_cycle c r1 rl r2 rest uu lg sw sess m p pl ex h401 hlok hdec hset]
  refine ⟨rfl, rfl, fun h => ?_, fun h => ?_⟩
  · simp [h]
  · have : ¬ r2.status < 400 := by omega
    simp [this]

/-- Witness for C1's amended theorem: concrete 401, then a good login,
then a 401 retry response, which is terminal. -/
theorem doRequest_single_reauth_cycle_witness :
    (doRequest plainClient
        ⟨[Option.some { status := 401, body := Json.null },
          Option.some { status := 200, body := Json.obj [("access_token", Json.str "tok1")] },
          Option.some { status := 401, body := Json.str "still bad" }], [], [], []⟩
        "PUT" "/x" "pl" [] true).2.2.log
      = [buildRequest plainClient "PUT" "/x" "pl" [], loginRequest plainClient,
         buildRequest { plainClient with token := "tok1" } "PUT" "/x" "pl" []]
    ∧ (doRequest plainClient
        ⟨[Option.some { status := 401, body := Json.null },
          Option.some { status := 200, body := Json.obj [("access_token", Json.str "tok1")] },
          Option.some { status := 401, body := Json.str "still bad" }], [], [], []⟩
        "PUT" "/x" "pl" [] true).2.2.script = []
    ∧ ((401 : Nat) < 400 →
        (doRequest plainClient
          ⟨[Option.some { status := 401, body := Json.null },
            Option.some { status := 200, body := Json.obj [("access_token", Json.str "tok1")] },
            Option.some { status := 401, body := Json.str "still bad" }], [], [], []⟩
          "PUT" "/x" "pl" [] true).1
          = Except.ok { status := 401, body := Json.str "still bad" })
    ∧ ((400 : Nat) ≤ 401 →
        (doRequest plainClient
          ⟨[Option.some { status := 401, body := Json.null },
            Option.some { status := 200, body := Json.obj [("access_token", Json.str "tok1")] },
            Option.some { status := 401, body := Json.str "still bad" }], [], [], []⟩
          "PUT" "/x" "pl" [] true).1
          = Except.error (GoErr.reqStatus 401 (Json.str "still bad"))) :=
  doRequest_single_reauth_cycle plainClient
    { status := 401, body := Json.null }
    { status := 200, body := Json.obj [("access_token", Json.str "tok1")] }
    { status := 401, body := Json.str "still bad" }
    [] [] [] [] { accessToken := "tok1", deviceID := "" } "PUT" "/x" "pl" []
    rfl (by decide) rfl trivial

/-- C5: constructing a client over a session store whose `Get` yields a
session with a non-empty access token installs that token and issues no
HTTP call at all (the world is untouched); constructing with an absent
store, or a stored session whose access token is empty (both captured by
`clientAfterLoad` succeeding with an empty token), issues exactly one
login call — the log grows by exactly the login request — before the
construction returns successfully with the fresh token installed. -/
theorem newClient_stored_token_or_single_login :
    (∀ (cfg : Config) (w : World) (g : Except String Session)
       (setf : Session → Option String) (sess : Session),
       cfg.sessionStorage = StorageCfg.store g setf → g = Except.ok sess →
       sess.accessToken ≠ "" →
       NewClientWithConfig cfg w =
         (Except.ok { credentials := cfg.credentials, httpClient := transportOf cfg
                    , token := sess.accessToken, sessionStorage := cfg.sessionStorage }, w))
    ∧ (∀ (cfg : Config) (c0 : Client) (r : HttpResponse)
         (rest : List (Option HttpResponse)) (uu : List String) (lg : List HttpRequest)
         (sw : List Session) (sess : Session),
       clientAfterLoad cfg = Except.ok c0 → c0.token = "" →
       r.status < 400 → decodeSession r.body = Except.ok sess →
       storeSetOk c0.sessionStorage sess →
       NewClientWithConfig cfg ⟨Option.some r :: rest, uu, lg, sw⟩ =
         (Except.ok { c0 with token := sess.accessToken },
          ⟨rest, uu, lg ++ [loginRequest c0],
           storeWriteLog c0.sessionStorage sess sw⟩)) := by
  constructor
  · intro cfg w g setf sess hstore hget htok
    simp only [NewClientWithConfig, clientAfterLoad, hstore, hget, transportOf]
    rw [if_pos htok]
    dsimp only
    rw [if_neg htok]
  · intro cfg c0 r rest uu lg sw sess hload htok hok hdec hset
    simp only [NewClientWithConfig, hload]
    rw [if_pos htok]
    conv in authenticate c0 _ c0.token => rw [htok]
    rw [show ("" : String) = c0.token from htok.symm]
    rw [authenticate_run_success c0 r rest uu lg sw sess hok hdec hset]

/-- A freshly constructed client before eager authentication: no store,
empty token. -/
def emptyTokenClient : Client :=
  { credentials := { server := "https://m", user := "u", password := "p" }
  , httpClient := defaultTimeoutClient, token := ""
  , sessionStorage := StorageCfg.absent }

/-- Witness for C5: the first part at a store holding token `cached`,
the second at a storeless config whose login returns `fresh`. -/
theorem newClient_stored_token_or_single_login_witness :
    (NewClientWithConfig
        { credentials := { server := "https://m", user := "u", password := "p" }
        , sessionStorage :=
            StorageCfg.store (Except.ok { accessToken := "cached", deviceID := "d" })
              (fun _ => Option.none)
        , httpClient := Option.none }
        ⟨[], [], [], []⟩ =
      (Except.ok { credentials := { server := "https://m", user := "u", password := "p" }
                 , httpClient := transportOf
                     { credentials := { server := "https://m", user := "u", password := "p" }
                     , sessionStorage :=
                         StorageCfg.store (Except.ok { accessToken := "cached", deviceID := "d" })
                           (fun _ => Option.none)
                     , httpClient := Option.none }
                 , token := "cached"
                 , sessionStorage :=
                     StorageCfg.store (Except.ok { accessToken := "cached", deviceID := "d" })
                       (fun _ => Option.none) },
       ⟨[], [], [], []⟩))
    ∧ (NewClientWithConfig
        { credentials := { server := "https://m", user := "u", password := "p" }
        , sessionStorage := StorageCfg.absent, httpClient := Option.none }
        ⟨[Option.some { status := 200, body := Json.obj [("access_token", Json.str "fresh")] }],
         [], [], []⟩ =
      (Except.ok { emptyTokenClient with token := "fresh" },
       ⟨[], [], [loginRequest emptyTokenClient],
        storeWriteLog StorageCfg.absent { accessToken := "fresh", deviceID := "" } []⟩)) := by
  constructor
  · exact newClient_stored_token_or_single_login.1
      { credentials := { server := "https://m", user := "u", password := "p" }
      , sessionStorage :=
          StorageCfg.store (Except.ok { accessToken := "cached", deviceID := "d" })
            (fun _ => Option.none)
      , httpClient := Option.none }
      ⟨[], [], [], []⟩ _ _ { accessToken := "cached", deviceID := "d" } rfl rfl (by decide)
  · exact newClient_stored_token_or_single_login.2
      { credentials := { server := "https://m", user := "u", password := "p" }
      , sessionStorage := StorageCfg.absent, httpClient := Option.none }
      emptyTokenClient
      { status := 200, body := Json.obj [("access_token", Json.str "fresh")] }
      [] [] [] [] { accessToken := "fresh", deviceID := "" }
      rfl rfl (by decide) rfl trivial

/-- A client configured with a custom transport (its own 5-second
timeout, tag 7), as `Config.HttpClient` allows. -/
def customTransportClient : Client :=
  { credentials := { server := "https://m", user := "u", password := "p" }
  , httpClient := { timeout := Option.some 5, tag := 7 }
  , token := "tok"
  , sessionStorage := StorageCfg.absent }

/-- C6 evaluation: a message send from a client carrying a custom
transport is nonetheless issued through `http.DefaultClient` — which has
no timeout — and `doRequest` puts no deadline of its own on the call;
the configured transport is never the one that executes the request.
The login request is likewise executed by `http.DefaultClient`, bounded
only by the one-minute context `authenticate` itself creates. -/
theorem sendText_ignores_configured_transport :
    (SendText customTransportClient
        ⟨[Option.some { status := 200, body := Json.null }], ["id1"], [], []⟩
        "!r:x" "hi").2.2.log.map HttpRequest.transport = [defaultClient]
    ∧ (SendText customTransportClient
        ⟨[Option.some { status := 200, body := Json.null }], ["id1"], [], []⟩
        "!r:x" "hi").2.2.log.map HttpRequest.ctxTimeout = [Option.none]
    ∧ customTransportClient.httpClient ≠ defaultClient
    ∧ defaultClient.timeout = Option.none
    ∧ (loginRequest customTransportClient).transport = defaultClient
    ∧ (loginRequest customTransportClient).ctxTimeout = Option.some requestTimeout :=
  ⟨rfl, rfl, by decide, rfl, rfl, rfl⟩

/-- C7: `sendMessage` draws exactly one fresh identifier from the UUID
stream for the logical call, and across the 401 / re-authenticate /
retry cycle both attempts carry the same method (PUT), the same path —
embedding that same identifier — and the same serialized payload; the
retry differs only in the freshly read bearer token (it is built from
the client holding the new token) and is issued with retry disallowed. -/
theorem sendMessage_fresh_id_identical_retry (c : Client) (msg : apiSendMsgReq)
    (u : String) (us : List String) (r1 rl r2 : HttpResponse)
    (rest : List (Option HttpResponse)) (lg : List HttpRequest) (sw : List Session)
    (sess : Session)
    (h401 : r1.status = 401) (hlok : rl.status < 400)
    (hdec : decodeSession rl.body = Except.ok sess)
    (hset : storeSetOk c.sessionStorage sess) (hr2 : r2.status < 400) :
    sendMessage c ⟨Option.some r1 :: Option.some rl :: Option.some r2 :: rest, u :: us, lg, sw⟩
        msg =
      (Except.ok (), { c with token := sess.accessToken },
       ⟨rest, us,
        lg ++ [buildRequest c "PUT" (msgPath msg.roomID u) (marshalSendMsg msg)
                 [("Content-Type", "application/json")],
               loginRequest c,
               buildRequest { c with token := sess.accessToken } "PUT"
                 (msgPath msg.roomID u) (marshalSendMsg msg)
                 [("Content-Type", "application/json")]],
        storeWriteLog c.sessionStorage sess sw⟩) := by
  simp only [sendMessage, nextUuid]
  rw [doRequest_cycle c r1 rl r2 rest us lg sw sess "PUT" (msgPath msg.roomID u)
    (marshalSendMsg msg) [("Content-Type", "application/json")] h401 hlok hdec hset]
  rw [if_pos hr2]

/-- Witness for C7 at a concrete client, message and scripted cycle. -/
theorem sendMessage_fresh_id_identical_retry_witness :
    sendMessage plainClient
      ⟨[Option.some { status := 401, body := Json.null },
        Option.some { status := 200, body := Json.obj [("access_token", Json.str "tok1")] },
        Option.some { status := 200, body := Json.null }], ["ev-1", "ev-2"], [], []⟩
      (buildTextMsg "!r:x" "hi") =
    (Except.ok (), { plainClient with token := "tok1" },
     ⟨[], ["ev-2"],
      [buildRequest plainClient "PUT" (msgPath "!r:x" "ev-1")
         (marshalSendMsg (buildTextMsg "!r:x" "hi")) [("Content-Type", "application/json")],
       loginRequest plainClient,
       buildRequest { plainClient with token := "tok1" } "PUT" (msgPath "!r:x" "ev-1")
         (marshalSendMsg (buildTextMsg "!r:x" "hi")) [("Content-Type", "application/json")]],
      storeWriteLog StorageCfg.absent { accessToken := "tok1", deviceID := "" } []⟩) :=
  sendMessage_fresh_id_identical_retry plainClient (buildTextMsg "!r:x" "hi")
    "ev-1" ["ev-2"]
    { status := 401, body := Json.null }
    { status := 200, body := Json.obj [("access_token", Json.str "tok1")] }
    { status := 200, body := Json.null }
    [] [] [] { accessToken := "tok1", deviceID := "" }
    rfl (by decide) rfl trivial (by decide)

/-- C8: `UploadFile contentType data` issues a POST to the fixed upload
path whose Content-Type header equals `contentType` and whose
Content-Length header equals the length of `data`, and on a success
response returns exactly the `content_uri` field of the response's JSON
body. -/
theorem uploadFile_request_shape_and_uri (c : Client) (ct data : String)
    (r : HttpResponse) (rest : List (Option HttpResponse)) (uu : List String)
    (lg : List HttpRequest) (sw : List Session) (uri : String)
    (hok : r.status < 400) (hdec : decodeUploadResp r.body = Except.ok uri) :
    UploadFile c ⟨Option.some r :: rest, uu, lg, sw⟩ ct data =
      (Except.ok uri, c,
       ⟨rest, uu,
        lg ++ [buildRequest c "POST" "/_matrix/media/v3/upload" data
                 [("Content-Type", ct), ("Content-Length", toString data.length)]], sw⟩)
    ∧ (buildRequest c "POST" "/_matrix/media/v3/upload" data
        [("Content-Type", ct), ("Content-Length", toString data.length)]).method = "POST"
    ∧ getHeader (buildRequest c "POST" "/_matrix/media/v3/upload" data
        [("Content-Type", ct), ("Content-Length", toString data.length)]).headers
        "Content-Type" = Option.some ct
    ∧ getHeader (buildRequest c "POST" "/_matrix/media/v3/upload" data
        [("Content-Type", ct), ("Content-Length", toString data.length)]).headers
        "Content-Length" = Option.some (toString data.length) := by
  refine ⟨?_, rfl, rfl, rfl⟩
  simp only [UploadFile, doRequest, attempt_script_cons, getToken]
  rw [if_pos hok]
  dsimp only
  rw [hdec]

/-- Witness for C8: `"image/jpeg"`, a 3-byte payload, and the response
body from the spec example. -/
theorem uploadFile_request_shape_and_uri_witness :
    UploadFile plainClient
      ⟨[Option.some { status := 200, body := Json.obj [("content_uri", Json.str "mxc://example")] }],
       [], [], []⟩ "image/jpeg" "abc" =
      (Except.ok "mxc://example", plainClient,
       ⟨[], [],
        [buildRequest plainClient "POST" "/_matrix/media/v3/upload" "abc"
           [("Content-Type", "image/jpeg"), ("Content-Length", toString ("abc" : String).length)]],
        []⟩)
    ∧ (buildRequest plainClient "POST" "/_matrix/media/v3/upload" "abc"
        [("Content-Type", "image/jpeg"), ("Content-Length", toString ("abc" : String).length)]).method
        = "POST"
    ∧ getHeader (buildRequest plainClient "POST" "/_matrix/media/v3/upload" "abc"
        [("Content-Type", "image/jpeg"), ("Content-Length", toString ("abc" : String).length)]).headers
        "Content-Type" = Option.some "image/jpeg"
    ∧ getHeader (buildRequest plainClient "POST" "/_matrix/media/v3/upload" "abc"
        [("Content-Type", "image/jpeg"), ("Content-Length", toString ("abc" : String).length)]).headers
        "Content-Length" = Option.some (toString ("abc" : String).length) :=
  uploadFile_request_shape_and_uri plainClient "image/jpeg" "abc"
    { status := 200, body := Json.obj [("content_uri", Json.str "mxc://example")] }
    [] [] [] [] "mxc://example" (by decide) rfl

/-- C9: for any room, `SendMedia` with media Type `Image`, caption
`"c"`, URI `"mxc://y"` and empty filename serializes its request body to
exactly the JSON object with msgtype `m.image`, body `c` and url
`mxc://y` — the room identifier does not appear in the body. -/
theorem sendMedia_image_exact_body (roomID : String) :
    marshalSendMsg (buildMediaMsg roomID
        { type := Image, caption := "c", filename := "", uri := "mxc://y" })
      = "\x7b\"msgtype\":\"m.image\",\"body\":\"c\",\"url\":\"mxc://y\"\x7d" := rfl

/-- Witness for C9 at a concrete room identifier. -/
theorem sendMedia_image_exact_body_witness :
    marshalSendMsg (buildMediaMsg "!abc:x"
        { type := Image, caption := "c", filename := "", uri := "mxc://y" })
      = "\x7b\"msgtype\":\"m.image\",\"body\":\"c\",\"url\":\"mxc://y\"\x7d" :=
  sendMedia_image_exact_body "!abc:x"

/-- C10: in the payloads built by `SendText` and `SendMedia`, each
optional field (body, format, formatted_body, filename, url) is present
in the serialized object exactly when the corresponding input string
(text, caption, filename, URI) is non-empty — `SendText` never sets
format, formatted_body, filename or url, and `SendMedia` never sets
format or formatted_body — while msgtype is always present and carries
the media `Type` string verbatim, with no validation: any string,
the empty string included, is accepted. -/
theorem sendMsg_omitempty_fields_msgtype_verbatim
    (roomID text ty caption filename uri : String) :
    ("body" ∈ (sendMsgFields (buildTextMsg roomID text)).map Prod.fst ↔ text ≠ "")
    ∧ "format" ∉ (sendMsgFields (buildTextMsg roomID text)).map Prod.fst
    ∧ "formatted_body" ∉ (sendMsgFields (buildTextMsg roomID text)).map Prod.fst
    ∧ "filename" ∉ (sendMsgFields (buildTextMsg roomID text)).map Prod.fst
    ∧ "url" ∉ (sendMsgFields (buildTextMsg roomID text)).map Prod.fst
    ∧ ("body" ∈ (sendMsgFields (buildMediaMsg roomID
          { type := ty, caption := caption, filename := filename, uri := uri })).map Prod.fst
        ↔ caption ≠ "")
    ∧ ("filename" ∈ (sendMsgFields (buildMediaMsg roomID
          { type := ty, caption := caption, filename := filename, uri := uri })).map Prod.fst
        ↔ filename ≠ "")
    ∧ ("url" ∈ (sendMsgFields (buildMediaMsg roomID
          { type := ty, caption := caption, filename := filename, uri := uri })).map Prod.fst
        ↔ uri ≠ "")
    ∧ "format" ∉ (sendMsgFields (buildMediaMsg roomID
          { type := ty, caption := caption, filename := filename, uri := uri })).map Prod.fst
    ∧ "formatted_body" ∉ (sendMsgFields (buildMediaMsg roomID
          { type := ty, caption := caption, filename := filename, uri := uri })).map Prod.fst
    ∧ (sendMsgFields (buildMediaMsg roomID
          { type := ty, caption := caption, filename := filename, uri := uri })).head?
        = Option.some ("msgtype", jsonQuote ty)
    ∧ (buildMediaMsg roomID
          { type := ty, caption := caption, filename := filename, uri := uri }).type = ty := by
  have hbm : "body" ≠ "msgtype" := by decide
  have hfm : "format" ≠ "msgtype" := by decide
  have hfbm : "formatted_body" ≠ "msgtype" := by decide
  have hnm : "filename" ≠ "msgtype" := by decide
  have hum : "url" ≠ "msgtype" := by decide
  have hfb : "format" ≠ "body" := by decide
  have hfbb : "formatted_body" ≠ "body" := by decide
  have hnb : "filename" ≠ "body" := by decide
  have hub : "url" ≠ "body" := by decide
  have hnf : "filename" ≠ "format" := by decide
  have hnfb : "filename" ≠ "formatted_body" := by decide
  have huf : "url" ≠ "format" := by decide
  have hufb : "url" ≠ "formatted_body" := by decide
  have hun : "url" ≠ "filename" := by decide
  have hbf : "body" ≠ "format" := by decide
  have hbfb : "body" ≠ "formatted_body" := by decide
  have hbn : "body" ≠ "filename" := by decide
  have hbu : "body" ≠ "url" := by decide
  refine ⟨?_, ?_, ?_, ?_, ?_, ?_, ?_, ?_, ?_, ?_, ?_, rfl⟩ <;>
    by_cases h1 : text = "" <;> by_cases h2 : caption = "" <;>
    by_cases h3 : filename = "" <;> by_cases h4 : uri = "" <;>
    simp_all [sendMsgFields, buildTextMsg, buildMediaMsg]

/-- Witness for C10 at concrete field values, the empty media type
included. -/
theorem sendMsg_omitempty_fields_msgtype_verbatim_witness :
    ("body" ∈ (sendMsgFields (buildTextMsg "!r:x" "hi")).map Prod.fst ↔ ("hi" : String) ≠ "")
    ∧ "format" ∉ (sendMsgFields (buildTextMsg "!r:x" "hi")).map Prod.fst
    ∧ "formatted_body" ∉ (sendMsgFields (buildTextMsg "!r:x" "hi")).map Prod.fst
    ∧ "filename" ∉ (sendMsgFields (buildTextMsg "!r:x" "hi")).map Prod.fst
    ∧ "url" ∉ (sendMsgFields (buildTextMsg "!r:x" "hi")).map Prod.fst
    ∧ ("body" ∈ (sendMsgFields (buildMediaMsg "!r:x"
          { type := "", caption := "c", filename := "", uri := "mxc://y" })).map Prod.fst
        ↔ ("c" : String) ≠ "")
    ∧ ("filename" ∈ (sendMsgFields (buildMediaMsg "!r:x"
          { type := "", caption := "c", filename := "", uri := "mxc://y" })).map Prod.fst
        ↔ ("" : String) ≠ "")
    ∧ ("url" ∈ (sendMsgFields (buildMediaMsg "!r:x"
          { type := "", caption := "c", filename := "", uri := "mxc://y" })).map Prod.fst
        ↔ ("mxc://y" : String) ≠ "")
    ∧ "format" ∉ (sendMsgFields (buildMediaMsg "!r:x"
          { type := "", caption := "c", filename := "", uri := "mxc://y" })).map Prod.fst
    ∧ "formatted_body" ∉ (sendMsgFields (buildMediaMsg "!r:x"
          { type := "", caption := "c", filename := "", uri := "mxc://y" })).map Prod.fst
    ∧ (sendMsgFields (buildMediaMsg "!r:x"
          { type := "", caption := "c", filename := "", uri := "mxc://y" })).head?
        = Option.some ("msgtype", jsonQuote "")
    ∧ (buildMediaMsg "!r:x"
          { type := "", caption := "c", filename := "", uri := "mxc://y" }).type = "" :=
  sendMsg_omitempty_fields_msgtype_verbatim "!r:x" "hi" "" "c" "" "mxc://y"

end gomatrix
